import Mathlib

/-!
Verification of the chat relay-and-persistence backend
(`src/Backend/{config,database,ollama_client,server}.py`).

Shallow embedding conventions:
* SQLite storage is a value `DB`: lists of chat and message rows in
  insertion order (the Python layer reads messages back `ORDER BY
  timestamp`, and within one connection timestamps are non-decreasing
  with ties broken by insertion order, so list order is the read-back
  order).  `uuid4` identifiers are modelled as fresh naturals drawn
  from a counter `nextId`.
* Network I/O is an oracle parameter: a blocking chat call is one
  `UpstreamResp`, a streaming call is a list of transport `Line`s, a
  metadata fetch is one `FetchResult`.
* A Python `sqlite3.Error` raised inside a storage write is modelled
  by an explicit boolean fault flag at the call site (`Faults`,
  `persistFault`, `sqlFault`); where no flag is threaded the write is
  on the success path of the claim under consideration.
* Python floats in the model-parameter table are configuration
  constants, never computed with, so they are embedded as rationals.

A central finding: `server.py` as written is not legal Python.  Inside
`stream_chat.generate`, the declaration `nonlocal chat_id` (line 229)
follows a use of `chat_id` (line 223) in the same block, which CPython
rejects at byte-compile time with `SyntaxError: name 'chat_id' is used
prior to nonlocal declaration`.  CPython compiles every nested block
when the module is compiled, so the whole module fails to load: the
Flask app never starts and no route handler of `server.py` ever runs.
The other three modules (`config.py`, `database.py`,
`ollama_client.py`) byte-compile and are importable on their own.
This file therefore contains two kinds of material about `server.py`:
a model of the static scoping rule itself, showing the compile failure
(`nonlocalLegal`, `server_module_compiles`); and embeddings of the
handler bodies under their evident intended semantics — the semantics
obtained by the one-line fix of hoisting the `nonlocal` declaration to
the top of the block, which is the only legal placement and changes
nothing else — used to document what behavior the handlers describe
and the program, as written, cannot deliver.  Definitions that embed
only `database.py` or `ollama_client.py` model running code.
-/

namespace ChatBackend

/-! ### config.py -/

/-- `config.DEFAULT_MODEL` (default environment). -/
def DEFAULT_MODEL : String := "llama3"

/-- One entry of `config.MODEL_PARAMS`. -/
structure ModelConfig where
  temperature : ℚ
  max_tokens : ℕ
  top_p : ℚ
  repeat_penalty : ℚ
deriving DecidableEq

/-- `config.MODEL_PARAMS` with the default (no environment override) values. -/
def MODEL_PARAMS : List (String × ModelConfig) :=
  [("llama3",  { temperature := 7/10,   max_tokens := 2048, top_p := 9/10, repeat_penalty := 11/10 }),
   ("mistral", { temperature := 72/100, max_tokens := 2048, top_p := 9/10, repeat_penalty := 11/10 }),
   ("gemma",   { temperature := 7/10,   max_tokens := 2048, top_p := 9/10, repeat_penalty := 105/100 })]

/-- `MODEL_PARAMS.get(model)` — association-list lookup. -/
def lookupConfig (model : String) : Option ModelConfig :=
  (MODEL_PARAMS.find? (fun p => p.1 == model)).map Prod.snd

/-! ### database.py — storage model -/

/-- A row of the `chats` table (timestamps omitted: no claim reads them). -/
structure Chat where
  id : ℕ
  title : String
  model : String
deriving DecidableEq

/-- A row of the `messages` table. -/
structure Message where
  id : ℕ
  chat_id : ℕ
  role : String
  content : String
deriving DecidableEq

/-- The SQLite database: rows in insertion order plus a fresh-id counter
standing in for `uuid4`. -/
structure DB where
  chats : List Chat
  messages : List Message
  nextId : ℕ
deriving DecidableEq

/-- Freshness discipline of the id counter: every stored id and foreign key
was drawn from the counter earlier. -/
def DB.WF (db : DB) : Prop :=
  (∀ c ∈ db.chats, c.id < db.nextId) ∧ (∀ m ∈ db.messages, m.chat_id < db.nextId)

/-- `database.create_chat(title, model)`: insert a chat row, return its id. -/
def create_chat (db : DB) (title model : String) : ℕ × DB :=
  (db.nextId,
   { chats := db.chats ++ [{ id := db.nextId, title := title, model := model }],
     messages := db.messages,
     nextId := db.nextId + 1 })

/-- `database.add_message(chat_id, role, content)`: insert a message row,
return its id (the `updated_at` refresh has no observable effect here). -/
def add_message (db : DB) (chat_id : ℕ) (role content : String) : ℕ × DB :=
  (db.nextId,
   { chats := db.chats,
     messages := db.messages ++ [{ id := db.nextId, chat_id := chat_id, role := role, content := content }],
     nextId := db.nextId + 1 })

/-- `database.get_chat_messages(chat_id)`: all messages of one chat in
stored order. -/
def get_chat_messages (db : DB) (chat_id : ℕ) : List Message :=
  db.messages.filter (fun m => m.chat_id == chat_id)

/-- `database.get_chat(chat_id)`: the chat row with its messages, or `none`. -/
def get_chat (db : DB) (chat_id : ℕ) : Option (Chat × List Message) :=
  match db.chats.find? (fun c => c.id == chat_id) with
  | none => none
  | some c => some (c, get_chat_messages db chat_id)

/-- `database.delete_chat(chat_id)`: `DELETE FROM chats WHERE id = ?` plus the
foreign-key cascade on messages; returns `true` unless SQLite raised
(`sqlFault`).  Note the statement succeeds even when no row matches. -/
def delete_chat (db : DB) (chat_id : ℕ) (sqlFault : Bool) : Bool × DB :=
  if sqlFault then (false, db)
  else (true,
    { chats := db.chats.filter (fun c => !(c.id == chat_id)),
      messages := db.messages.filter (fun m => !(m.chat_id == chat_id)),
      nextId := db.nextId })

/-! ### ollama_client.py -/

/-- Generation-parameter resolution shared by `OllamaClient.chat`,
`OllamaClient.chat_stream` and `OllamaClient.generate`
(`ollama_client.py:110-115` and the two identical copies):
`model_config = MODEL_PARAMS.get(model, MODEL_PARAMS.get(DEFAULT_MODEL, {}))`,
then each `None` argument falls back to
`model_config.get(field, hard_default)`. -/
def resolveParams (model : String) (temperature : Option ℚ) (max_tokens : Option ℕ) : ℚ × ℕ :=
  let model_config :=
    match lookupConfig model with
    | some c => some c
    | none => lookupConfig DEFAULT_MODEL
  let t : ℚ :=
    match temperature with
    | some t => t
    | none =>
      match model_config with
      | some c => c.temperature
      | none => 7/10
  let m : ℕ :=
    match max_tokens with
    | some m => m
    | none =>
      match model_config with
      | some c => c.max_tokens
      | none => 2048
  (t, m)

/-- `self.models_cache = {"timestamp": ..., "data": ...}`. -/
structure ModelsCache where
  timestamp : ℤ
  data : Option (List String)
deriving DecidableEq

/-- The mutable state of one `OllamaClient` relevant to the metadata cache
(`models_cache` plus the constructor-time TTL `models_cache_time = 300`). -/
structure ClientState where
  models_cache : ModelsCache
  models_cache_time : ℤ
deriving DecidableEq

/-- Outcome of one live `GET /api/tags` transport attempt. -/
inductive FetchResult where
  | ok (models : List String)
  | httpError (status : ℕ)
  | netError (e : String)
deriving DecidableEq

/-- Whether the transport attempt returned HTTP 200. -/
def FetchResult.isOk : FetchResult → Bool
  | FetchResult.ok _ => true
  | _ => false

/-- `OllamaClient.get_models(force_refresh)` (`ollama_client.py:55-89`).
`current_time` is `time.time()` at entry; `fetch` is the oracle for the live
call, consulted only on the refresh path.  Returns the JSON result (or the
`\x7b"error": ...\x7d` dict as `Except.error`), the successor client state, and
whether a live upstream call was made. -/
def get_models (c : ClientState) (force_refresh : Bool) (current_time : ℤ)
    (fetch : FetchResult) : Except String (List String) × ClientState × Bool :=
  if !force_refresh && c.models_cache.data.isSome &&
      decide (current_time - c.models_cache.timestamp < c.models_cache_time) then
    (Except.ok (c.models_cache.data.getD []), c, false)
  else
    match fetch with
    | FetchResult.ok ms =>
      (Except.ok ms,
       { c with models_cache := { timestamp := current_time, data := some ms } }, true)
    | FetchResult.httpError s =>
      (Except.error ("Fehler beim Abrufen der Modelle: " ++ toString s), c, true)
    | FetchResult.netError e =>
      (Except.error ("Verbindungsfehler bei Modellabfrage: " ++ e), c, true)

/-- One decoded chunk of a streaming response, as the server inspects it:
`error` is the value under the top-level `"error"` key when present, and
`content` is `chunk["message"]["content"]` when both keys are present. -/
structure Chunk where
  error : Option String
  content : Option String
deriving DecidableEq

/-- One line of the streaming transport body, abstracted at the JSON parse:
falsy (blank), parsing to a chunk, or failing `json.loads` with message `e`. -/
inductive Line where
  | blank
  | parsed (c : Chunk)
  | malformed (e : String)
deriving DecidableEq

/-- The error chunk `chat_stream` yields for a line that fails to parse
(`ollama_client.py:219-221`). -/
def parseFailChunk (e : String) : Chunk :=
  { error := some ("Fehler beim Parsen der Antwort: " ++ e), content := none }

/-- The `for line in response.iter_lines()` loop of `chat_stream`
(`ollama_client.py:214-221`): blank lines are skipped, a parsed line yields
its chunk, a malformed line yields one error chunk — and the loop continues. -/
def streamLines : List Line → List Chunk
  | [] => []
  | Line.blank :: rest => streamLines rest
  | Line.parsed c :: rest => c :: streamLines rest
  | Line.malformed e :: rest => parseFailChunk e :: streamLines rest

/-- `OllamaClient.chat_stream` after the request was issued
(`ollama_client.py:200-221`): a non-200 status yields a single error chunk
and stops, otherwise the body lines are processed in order.  (A
`requests.RequestException` before or during the body, which would append one
further error chunk, is outside every claim and not modelled.) -/
def chat_stream (status : ℕ) (lines : List Line) : List Chunk :=
  if status != 200 then
    [{ error := some ("Fehler bei der Stream-Anfrage: " ++ toString status), content := none }]
  else streamLines lines

/-! ### server.py -/

/-- The JSON request body of `/api/chat` and `/api/chat/stream`.  A field is
`none` when its key is absent from the body; a key present with an empty
string is `some ""`. -/
structure ChatRequest where
  model : Option String
  message : Option String
  chat_id : Option ℕ
  temperature : Option ℚ
  max_tokens : Option ℕ
deriving DecidableEq

/-- The upstream response to a blocking chat call as `chat` inspects it:
the `"error"` key if present, and `response.get("message", \x7b\x7d).get("content", "")`. -/
structure UpstreamResp where
  error : Option String
  content : String
deriving DecidableEq

/-- Which storage writes of the blocking turn raise `sqlite3.Error`. -/
structure Faults where
  create_chat : Bool
  add_user : Bool
  add_assistant : Bool
deriving DecidableEq

/-- The JSON result of the blocking `/api/chat` handler. -/
inductive ChatResult where
  | validationError (msg : String)
  | upstreamError (msg : String)
  | success (chat_id : ℕ) (response : String) (message_id : ℕ)
  | warning (response : String) (err : String)
deriving DecidableEq

/-- `server.py:159,224`: `message[:50] + ('...' if len(message) > 50 else '')`. -/
def truncTitle (message : String) : String :=
  message.take 50 ++ (if message.length > 50 then "..." else "")

/-- The persistence tail of the blocking `chat` handler once a chat id is at
hand (`server.py:162-173` inside the `try`): store the user message, store
the assistant message, answer with the success JSON; a raising write is cut
short by the `except` into the warning JSON (`server.py:175-181`), which
still carries the generated text. -/
def persistMessages (db : DB) (cid : ℕ) (message content : String) (faults : Faults) :
    ChatResult × DB × Bool :=
  if faults.add_user then
    (ChatResult.warning content "add_message(user) failed", db, true)
  else
    let r2 := add_message db cid "user" message
    if faults.add_assistant then
      (ChatResult.warning content "add_message(assistant) failed", r2.2, true)
    else
      let r3 := add_message r2.2 cid "assistant" content
      (ChatResult.success cid content r3.1, r3.2, true)

/-- The blocking `/api/chat` handler (`server.py:110-181`) under its evident
intended semantics — the module itself never byte-compiles (see
`server_module_compiles`), so this handler never actually serves a request.
`data` is the parsed request body (`none` for a missing or falsy body),
`upstream` the oracle for the one blocking upstream call, `faults` the
storage-fault oracle.  Returns the JSON result, the successor database, and
whether the upstream call was made.  History assembly (`server.py:137-141`)
only shapes the upstream request, which the oracle already stands for. -/
def chat_endpoint (db : DB) (data? : Option ChatRequest) (upstream : UpstreamResp)
    (faults : Faults) : ChatResult × DB × Bool :=
  match data? with
  | none => (ChatResult.validationError "Modell und Nachricht sind erforderlich", db, false)
  | some data =>
    if data.model.isSome && data.message.isSome then
      let model := data.model.getD DEFAULT_MODEL
      let message := data.message.getD ""
      match upstream.error with
      | some e => (ChatResult.upstreamError e, db, true)
      | none =>
        match data.chat_id with
        | none =>
          if faults.create_chat then
            (ChatResult.warning upstream.content "create_chat failed", db, true)
          else
            let r1 := create_chat db (truncTitle message) model
            persistMessages r1.2 r1.1 message upstream.content faults
        | some cid => persistMessages db cid message upstream.content faults
    else
      (ChatResult.validationError "Modell und Nachricht sind erforderlich", db, false)

/-- One `data: ...` Server-Sent-Events frame emitted by the streaming
handler. -/
inductive Frame where
  | chatCreated (chat_id : ℕ)
  | content (s : String)
  | done (message_id : ℕ)
  | error (msg : String)
deriving DecidableEq

/-- The `for chunk in ollama_client.chat_stream(...)` loop of
`stream_chat.generate` (`server.py:238-252`): returns the frames the loop
yields, the final `full_response` accumulator, and whether an error chunk
aborted the loop (`return` at `server.py:247`). -/
def relayChunks : List Chunk → List Frame × String × Bool
  | [] => ([], "", false)
  | c :: cs =>
    match c.error with
    | some e => ([Frame.error e], "", true)
    | none =>
      match c.content with
      | some s =>
        let r := relayChunks cs
        (Frame.content s :: r.1, s ++ r.2.1, r.2.2)
      | none => relayChunks cs

/-- The tail of `stream_chat.generate` after conversation resolution
(`server.py:236-262`): relay the chunks; on abort stop with the frames so
far; otherwise persist `full_response` as the assistant message and emit the
done frame — unless that write raises (`persistFault`), in which case the
`except` yields an error frame instead (`server.py:260-262`). -/
def finishStream (preFrames : List Frame) (cid : ℕ) (db : DB)
    (relayed : List Frame × String × Bool) (persistFault : Bool) : List Frame × DB :=
  if relayed.2.2 then
    (preFrames ++ relayed.1, db)
  else if persistFault then
    (preFrames ++ relayed.1 ++ [Frame.error "Fehler beim Speichern"], db)
  else
    let rm := add_message db cid "assistant" relayed.2.1
    (preFrames ++ relayed.1 ++ [Frame.done rm.1], rm.2)

/-- The generator body of the streaming handler (`server.py:217-262`) under
its evident intended semantics: resolve the conversation (create it, store
the user message and emit the chat-created frame when no id was supplied;
otherwise just store the user message), then relay the upstream chunks.
`chunks` is the sequence produced by `OllamaClient.chat_stream`.  The body
as written is statically illegal — its `nonlocal chat_id` (line 229) follows
the use at line 223, so the module never byte-compiles (see
`generate_chat_id_stmts` and `server_module_compiles`); this definition
models the one-line fix of hoisting that declaration to the top of the
block, which changes nothing else. -/
def generate (db : DB) (chatId : Option ℕ) (model message : String)
    (chunks : List Chunk) (persistFault : Bool) : List Frame × DB :=
  match chatId with
  | none =>
    let r1 := create_chat db (truncTitle message) model
    let r2 := add_message r1.2 r1.1 "user" message
    finishStream [Frame.chatCreated r1.1] r1.1 r2.2 (relayChunks chunks) persistFault
  | some cid =>
    let r := add_message db cid "user" message
    finishStream [] cid r.2 (relayChunks chunks) persistFault

/-- The `/api/chat/stream` handler (`server.py:184-264`) under its evident
intended semantics (the module never byte-compiles, see
`server_module_compiles`): the same required-field check as the blocking
handler, rejecting with the 400 JSON before the generator (and hence any
upstream call) is started; otherwise the event stream produced by
`generate`. -/
def stream_chat_endpoint (db : DB) (data? : Option ChatRequest) (chunks : List Chunk)
    (persistFault : Bool) : Except String (List Frame × DB) :=
  match data? with
  | none => Except.error "Modell und Nachricht sind erforderlich"
  | some data =>
    if data.model.isSome && data.message.isSome then
      Except.ok (generate db data.chat_id (data.model.getD DEFAULT_MODEL)
        (data.message.getD "") chunks persistFault)
    else
      Except.error "Modell und Nachricht sind erforderlich"

/-! ### Static legality of server.py

CPython's symbol-table pass rejects a function block in which a name is
used before its `nonlocal` declaration (Python Language Reference, the
`nonlocal` statement; the reported error is
`SyntaxError: name ... is used prior to nonlocal declaration`).  The
whole module is byte-compiled at import, so one illegal nested block
makes the module unloadable. -/

/-- One statement of a Python block, viewed by the symbol-table pass only
through what it does with one fixed name: reads or writes it (`use`),
declares it `nonlocal` (`nonlocalDecl`), or neither (`other`). -/
inductive PyStmt where
  | use
  | nonlocalDecl
  | other
deriving DecidableEq

/-- Scan of a block in source order, tracking whether a use of the name was
already seen: a `nonlocal` declaration after a use is illegal. -/
def nonlocalLegalAux : List PyStmt → Bool → Bool
  | [], _ => true
  | PyStmt.use :: rest, _ => nonlocalLegalAux rest true
  | PyStmt.nonlocalDecl :: rest, seen => !seen && nonlocalLegalAux rest seen
  | PyStmt.other :: rest, seen => nonlocalLegalAux rest seen

/-- CPython's compile-time legality of the block for that name. -/
def nonlocalLegal (stmts : List PyStmt) : Bool :=
  nonlocalLegalAux stmts false

/-- The body of `stream_chat.generate` (`server.py:218-262`) as the
symbol-table pass sees it for the name `chat_id`, statement by statement in
source order: the assignments at lines 219-220 touch other names; line 223
reads `chat_id` (`if not chat_id:`); lines 224-228 touch other names; line
229 is `nonlocal chat_id`; line 230 assigns it; the `elif` arm at lines
232-234 reads it; the stream loop at lines 237-252 touches other names;
line 255 reads it (`add_message(chat_id, ...)`); lines 258-262 touch other
names. -/
def generate_chat_id_stmts : List PyStmt :=
  [PyStmt.other, PyStmt.other,
   PyStmt.use,
   PyStmt.other, PyStmt.other, PyStmt.other,
   PyStmt.nonlocalDecl,
   PyStmt.use,
   PyStmt.use,
   PyStmt.other,
   PyStmt.use,
   PyStmt.other]

/-- Whether `server.py` byte-compiles: every nested block must be legal, and
the one modelled block is the one that is not.  Since the module is compiled
as a whole at import, this value being `false` means no route handler of
`server.py` — blocking chat, streaming chat, read, delete — ever runs. -/
def server_module_compiles : Bool :=
  nonlocalLegal generate_chat_id_stmts

/-! ### Observation helpers on frame lists -/

/-- The delta carried by a content frame. -/
def frameContent : Frame → Option String
  | Frame.content s => some s
  | _ => none

/-- Whether a frame is the terminal done frame. -/
def isDone : Frame → Bool
  | Frame.done _ => true
  | _ => false

/-- Whether a frame is an error frame. -/
def isErrFrame : Frame → Bool
  | Frame.error _ => true
  | _ => false

/-- Concatenation, in emission order, of the deltas of all content frames. -/
def contentConcat : List Frame → String
  | [] => ""
  | Frame.content s :: fs => s ++ contentConcat fs
  | _ :: fs => contentConcat fs

/-! ## Theorems -/

/-- Processing the transport body is line-local: the chunks of a
concatenation are the concatenated chunks. -/
theorem streamLines_append (l1 l2 : List Line) :
    streamLines (l1 ++ l2) = streamLines l1 ++ streamLines l2 := by
  induction l1 with
  | nil => simp [streamLines]
  | cons x xs ih => cases x <;> simp [streamLines, ih]

/-- Claim C2, as stated, is false on the code: after the single error chunk
produced for a malformed line, the streaming client keeps producing chunks —
here the well-formed second line still yields its content chunk after the
error chunk. -/
theorem C2_counterexample :
    chat_stream 200 [Line.malformed "bad", Line.parsed { error := none, content := some "hi" }] =
      [parseFailChunk "bad", { error := none, content := some "hi" }] ∧
    (parseFailChunk "bad").error.isSome = true ∧
    (Chunk.error { error := none, content := some "hi" }).isSome = false :=
  ⟨rfl, rfl, rfl⟩

/-- Claim C2 (amended): a line that fails to parse as JSON yields exactly one
error chunk for that line, but the chunk sequence is not closed — the
remaining lines of the body are still processed and contribute their chunks
exactly as they would without the malformed line. -/
theorem C2_parse_failure_continues (pre post : List Line) (e : String) :
    chat_stream 200 (pre ++ Line.malformed e :: post) =
      streamLines pre ++ parseFailChunk e :: streamLines post := by
  simp [chat_stream, streamLines_append, streamLines]

/-- Under the intended handler semantics, a chat turn request (blocking or
streaming) whose body is missing, or whose `model` or `message` key is
absent, is rejected
with the validation error before any upstream call is attempted (the blocking
handler reports no upstream call was made; the streaming handler rejects
before its generator exists).  A key present with an empty-string value is
not rejected. -/
theorem intended_missing_fields_rejected (db : DB) (data? : Option ChatRequest)
    (upstream : UpstreamResp) (faults : Faults) (chunks : List Chunk) (pf : Bool)
    (habs : data? = none ∨ ∃ d, data? = some d ∧ (d.model = none ∨ d.message = none)) :
    (chat_endpoint db data? upstream faults).1 =
        ChatResult.validationError "Modell und Nachricht sind erforderlich" ∧
    (chat_endpoint db data? upstream faults).2.2 = false ∧
    stream_chat_endpoint db data? chunks pf =
        Except.error "Modell und Nachricht sind erforderlich" := by
  rcases habs with h | ⟨d, hd, habs⟩
  · subst h; exact ⟨rfl, rfl, rfl⟩
  · subst hd
    rcases habs with h | h <;>
      simp [chat_endpoint, stream_chat_endpoint, h]

/-- Claim C6: with a cached snapshot and two metadata calls inside its TTL
window, neither forcing refresh, both calls return the identical snapshot,
the client state is unchanged, and neither call goes live (zero live calls,
hence at most one); in particular the second call is served entirely from
the cache. -/
theorem C6_cache_idempotent (c : ClientState) (d : List String) (t1 t2 : ℤ)
    (f1 f2 : FetchResult)
    (hd : c.models_cache.data = some d)
    (h1 : t1 - c.models_cache.timestamp < c.models_cache_time)
    (h2 : t2 - c.models_cache.timestamp < c.models_cache_time) :
    get_models c false t1 f1 = (Except.ok d, c, false) ∧
    get_models (get_models c false t1 f1).2.1 false t2 f2 = (Except.ok d, c, false) := by
  have e1 : get_models c false t1 f1 = (Except.ok d, c, false) := by
    simp [get_models, hd, h1]
  refine ⟨e1, ?_⟩
  rw [e1]
  simp [get_models, hd, h2]

/-- Witness for C6: a client holding a snapshot captured at time 100, read
twice at times 200 and 300 with a 300-second TTL. -/
theorem C6_cache_idempotent_witness :
    get_models ⟨⟨100, some ["llama3"]⟩, 300⟩ false 200 (FetchResult.netError "x") =
      (Except.ok ["llama3"], ⟨⟨100, some ["llama3"]⟩, 300⟩, false) ∧
    get_models (get_models ⟨⟨100, some ["llama3"]⟩, 300⟩ false 200 (FetchResult.netError "x")).2.1
        false 300 (FetchResult.netError "y") =
      (Except.ok ["llama3"], ⟨⟨100, some ["llama3"]⟩, 300⟩, false) :=
  C6_cache_idempotent ⟨⟨100, some ["llama3"]⟩, 300⟩ ["llama3"] 200 300
    (FetchResult.netError "x") (FetchResult.netError "y") rfl (by decide) (by decide)

/-- Claim C7: a metadata refresh attempt (forced, cache miss, or expired
entry) whose live call fails — non-200 status or network error — leaves the
client state, hence the cached snapshot and its timestamp, unchanged, makes
exactly the one live attempt, and returns an error result. -/
theorem C7_failed_refresh (c : ClientState) (force : Bool) (t : ℤ)
    (fetch : FetchResult)
    (hmiss : force = true ∨ c.models_cache.data = none ∨
      ¬(t - c.models_cache.timestamp < c.models_cache_time))
    (hfail : fetch.isOk = false) :
    (get_models c force t fetch).2.1 = c ∧
    (get_models c force t fetch).2.2 = true ∧
    ∃ e, (get_models c force t fetch).1 = Except.error e := by
  have hc : (!force && c.models_cache.data.isSome &&
      decide (t - c.models_cache.timestamp < c.models_cache_time)) = false := by
    rcases hmiss with h | h | h <;> simp [h]
  cases fetch with
  | ok ms => simp [FetchResult.isOk] at hfail
  | httpError s =>
    exact ⟨by simp [get_models, hc], by simp [get_models, hc],
      "Fehler beim Abrufen der Modelle: " ++ toString s, by simp [get_models, hc]⟩
  | netError e =>
    exact ⟨by simp [get_models, hc], by simp [get_models, hc],
      "Verbindungsfehler bei Modellabfrage: " ++ e, by simp [get_models, hc]⟩

/-- Witness for C7: an empty cache plus a network failure leaves the client
untouched and yields an error. -/
theorem C7_failed_refresh_witness :
    (get_models ⟨⟨0, none⟩, 300⟩ false 0 (FetchResult.netError "down")).2.1 =
      ⟨⟨0, none⟩, 300⟩ ∧
    (get_models ⟨⟨0, none⟩, 300⟩ false 0 (FetchResult.netError "down")).2.2 = true ∧
    ∃ e, (get_models ⟨⟨0, none⟩, 300⟩ false 0 (FetchResult.netError "down")).1 =
      Except.error e :=
  C7_failed_refresh ⟨⟨0, none⟩, 300⟩ false 0 (FetchResult.netError "down")
    (Or.inr (Or.inl rfl)) rfl

/-- Claim C9: each generation parameter is resolved as the explicit request
value if supplied, else from one single configuration — the requested model's
if configured, otherwise the global default model's; both fields fall back to
the same configuration, never merged per-field from two models. -/
theorem C9_param_resolution (model : String) (t : Option ℚ) (m : Option ℕ) :
    ∃ cfg : ModelConfig,
      (lookupConfig model = some cfg ∨
        (lookupConfig model = none ∧ lookupConfig DEFAULT_MODEL = some cfg)) ∧
      resolveParams model t m = (t.getD cfg.temperature, m.getD cfg.max_tokens) := by
  cases h : lookupConfig model with
  | some cfg =>
    refine ⟨cfg, Or.inl rfl, ?_⟩
    cases t <;> cases m <;> simp [resolveParams, h]
  | none =>
    have hdef : lookupConfig DEFAULT_MODEL =
        some { temperature := 7/10, max_tokens := 2048, top_p := 9/10, repeat_penalty := 11/10 } := rfl
    refine ⟨{ temperature := 7/10, max_tokens := 2048, top_p := 9/10, repeat_penalty := 11/10 },
      Or.inr ⟨rfl, hdef⟩, ?_⟩
    cases t <;> cases m <;> simp [resolveParams, h, hdef]

/-- Claim C10, as stated, is false on the code at the storage interface —
the one place it can be exercised, since the HTTP routes live in the
unloadable `server.py`, while `database.py` imports and runs on its own:
conversation id 0 is unknown to an empty store — `get_chat` does report
not-found — yet `delete_chat` reports success (`True`), because the SQL
`DELETE` of zero rows commits normally. -/
theorem C10_counterexample :
    get_chat ⟨[], [], 0⟩ 0 = none ∧
    delete_chat ⟨[], [], 0⟩ 0 false = (true, ⟨[], [], 0⟩) :=
  ⟨rfl, rfl⟩

/-- Claim C10 (amended): at the storage interface of `database.py` (the
routes of `server.py` that would forward these results never run, the module
being unloadable), reading an unknown conversation id reports a not-found
failure — `None` returned, not raised; deleting reports a failure only when
the storage layer itself errors, so deleting an unknown id without a storage
error is reported as success, and the store is left unchanged. -/
theorem C10_unknown_id (db : DB) (cid : ℕ) (h : ∀ c ∈ db.chats, c.id ≠ cid) :
    get_chat db cid = none ∧
    (delete_chat db cid false).1 = true ∧
    (delete_chat db cid false).2.chats = db.chats ∧
    (delete_chat db cid true).1 = false := by
  refine ⟨?_, rfl, ?_, rfl⟩
  · have hf : db.chats.find? (fun c => c.id == cid) = none :=
      List.find?_eq_none.mpr (fun c hc => by simp [h c hc])
    simp [get_chat, hf]
  · simp only [delete_chat, Bool.false_eq_true, if_false]
    exact List.filter_eq_self.mpr (fun c hc => by simp [h c hc])

/-- Witness for C10 (amended) at the empty store and id 7. -/
theorem C10_unknown_id_witness :
    get_chat ⟨[], [], 0⟩ 7 = none ∧
    (delete_chat ⟨[], [], 0⟩ 7 false).1 = true ∧
    (delete_chat ⟨[], [], 0⟩ 7 false).2.chats = (⟨[], [], 0⟩ : DB).chats ∧
    (delete_chat ⟨[], [], 0⟩ 7 true).1 = false :=
  C10_unknown_id ⟨[], [], 0⟩ 7 (by simp)

/-- `contentConcat` is a homomorphism for append. -/
theorem contentConcat_append (l1 l2 : List Frame) :
    contentConcat (l1 ++ l2) = contentConcat l1 ++ contentConcat l2 := by
  induction l1 with
  | nil => simp [contentConcat, String.empty_append]
  | cons f fs ih => cases f <;> simp [contentConcat, ih, String.append_assoc]

/-- When no upstream chunk carries an error, the relay loop runs to the end:
it does not abort, the concatenated content frames equal the accumulator,
and the loop emits neither done nor error frames. -/
theorem relayChunks_no_error (chunks : List Chunk) (h : ∀ c ∈ chunks, c.error = none) :
    (relayChunks chunks).2.2 = false ∧
    contentConcat (relayChunks chunks).1 = (relayChunks chunks).2.1 ∧
    (relayChunks chunks).1.filter isDone = [] ∧
    (relayChunks chunks).1.filter isErrFrame = [] := by
  induction chunks with
  | nil => simp [relayChunks, contentConcat]
  | cons c cs ih =>
    have hc : c.error = none := h c (List.mem_cons_self c cs)
    have ih2 := ih (fun x hx => h x (List.mem_cons_of_mem c hx))
    cases hcon : c.content with
    | some s =>
      refine ⟨?_, ?_, ?_, ?_⟩ <;>
        simp [relayChunks, hc, hcon, contentConcat, isDone, isErrFrame,
          List.filter_cons, ih2.1, ih2.2.1, ih2.2.2.1, ih2.2.2.2]
    | none =>
      simpa [relayChunks, hc, hcon] using ih2

/-- When some upstream chunk carries an error, the relay loop aborts at the
first such chunk, emitting exactly one error frame and no done frame. -/
theorem relayChunks_error (chunks : List Chunk) (h : ∃ c ∈ chunks, c.error.isSome) :
    (relayChunks chunks).2.2 = true ∧
    (relayChunks chunks).1.countP isErrFrame = 1 ∧
    (relayChunks chunks).1.countP isDone = 0 := by
  induction chunks with
  | nil => simp at h
  | cons c cs ih =>
    cases hc : c.error with
    | some e =>
      refine ⟨?_, ?_, ?_⟩ <;> simp [relayChunks, hc, isErrFrame, isDone, List.countP_cons]
    | none =>
      have hcs : ∃ x ∈ cs, x.error.isSome := by
        rcases h with ⟨x, hx, hxe⟩
        rcases List.mem_cons.mp hx with rfl | hx2
        · rw [hc] at hxe; simp at hxe
        · exact ⟨x, hx2, hxe⟩
      have ih2 := ih hcs
      cases hcon : c.content with
      | some s =>
        refine ⟨?_, ?_, ?_⟩ <;>
          simp [relayChunks, hc, hcon, isErrFrame, isDone, List.countP_cons,
            ih2.1, ih2.2.1, ih2.2.2]
      | none =>
        simpa [relayChunks, hc, hcon] using ih2

/-- Appending one element determines the last element. -/
theorem getLast?_append_singleton {α : Type} (l : List α) (a : α) :
    (l ++ [a]).getLast? = some a := by
  rw [List.getLast?_append_of_ne_nil _ (by simp)]; rfl

/-- Variant of `getLast?_append_singleton` with a leading cons. -/
theorem getLast?_cons_append_singleton {α : Type} (x : α) (l : List α) (a : α) :
    (x :: (l ++ [a])).getLast? = some a := by
  rw [← List.cons_append, getLast?_append_singleton]

/-- Under the intended streaming semantics, on a turn whose upstream chunk
sequence ends without any error chunk (and whose completion write goes through), the concatenation
in emission order of all content frames equals the content of the assistant
message persisted at completion — the final stored message — and exactly one
done frame is emitted, last, carrying that persisted message's id. -/
theorem intended_stream_success (db : DB) (chatId : Option ℕ) (model message : String)
    (chunks : List Chunk) (hok : ∀ c ∈ chunks, c.error = none) :
    ∃ m : Message,
      (generate db chatId model message chunks false).2.messages.getLast? = some m ∧
      m.role = "assistant" ∧
      m.content = contentConcat (generate db chatId model message chunks false).1 ∧
      (generate db chatId model message chunks false).1.filter isDone = [Frame.done m.id] ∧
      (generate db chatId model message chunks false).1.getLast? = some (Frame.done m.id) := by
  obtain ⟨hab, hcc, hdone, herr⟩ := relayChunks_no_error chunks hok
  cases chatId with
  | none =>
    refine ⟨{ id := db.nextId + 2, chat_id := db.nextId, role := "assistant",
              content := (relayChunks chunks).2.1 }, ?_, rfl, ?_, ?_, ?_⟩
    · simp [generate, finishStream, hab, create_chat, add_message,
        getLast?_append_singleton]
    · simp [generate, finishStream, hab, create_chat, add_message,
        contentConcat_append, contentConcat, hcc, String.empty_append,
        String.append_empty]
    · simp [generate, finishStream, hab, create_chat, add_message,
        List.filter_append, hdone, List.filter_cons, isDone]
    · simp [generate, finishStream, hab, create_chat, add_message,
        getLast?_append_singleton, getLast?_cons_append_singleton]
  | some cid =>
    refine ⟨{ id := db.nextId + 1, chat_id := cid, role := "assistant",
              content := (relayChunks chunks).2.1 }, ?_, rfl, ?_, ?_, ?_⟩
    · simp [generate, finishStream, hab, add_message, getLast?_append_singleton]
    · simp [generate, finishStream, hab, add_message, contentConcat_append,
        contentConcat, hcc, String.empty_append, String.append_empty]
    · simp [generate, finishStream, hab, add_message, List.filter_append,
        hdone, List.filter_cons, isDone]
    · simp [generate, finishStream, hab, add_message, getLast?_append_singleton]

/-- Under the intended streaming semantics, on a turn in which some upstream
chunk carries an error, the relay emits exactly one error frame, emits no done frame, and
persists no assistant message — the count of stored assistant messages is
unchanged by the turn (only the user message was written). -/
theorem intended_stream_error (db : DB) (chatId : Option ℕ) (model message : String)
    (chunks : List Chunk) (pf : Bool) (hbad : ∃ c ∈ chunks, c.error.isSome) :
    (generate db chatId model message chunks pf).1.countP isErrFrame = 1 ∧
    (generate db chatId model message chunks pf).1.countP isDone = 0 ∧
    (generate db chatId model message chunks pf).2.messages.countP
        (fun m => m.role == "assistant") =
      db.messages.countP (fun m => m.role == "assistant") := by
  obtain ⟨hab, herr, hdone⟩ := relayChunks_error chunks hbad
  cases chatId with
  | none =>
    refine ⟨?_, ?_, ?_⟩ <;>
      simp [generate, finishStream, hab, create_chat, add_message,
        List.countP_append, List.countP_cons, isErrFrame, isDone, herr, hdone]
  | some cid =>
    refine ⟨?_, ?_, ?_⟩ <;>
      simp [generate, finishStream, hab, add_message, List.countP_append,
        List.countP_cons, isErrFrame, isDone, herr, hdone]

/-- Messages whose chat ids are below `n` never match a filter for `n`. -/
theorem filter_chatid_nil (ms : List Message) (n : ℕ) (h : ∀ m ∈ ms, m.chat_id < n) :
    ms.filter (fun m => m.chat_id == n) = [] := by
  induction ms with
  | nil => rfl
  | cons m ms ih =>
    have h1 : (m.chat_id == n) = false :=
      beq_eq_false_iff_ne.mpr (Nat.ne_of_lt (h m (List.mem_cons_self m ms)))
    simp only [List.filter_cons, h1, if_false]
    exact ih (fun x hx => h x (List.mem_cons_of_mem m hx))

/-- Under the intended handler semantics, a first turn submitted with no
conversation id — blocking (first conjunct) or streaming (second conjunct) —
creates exactly one
conversation record, appended to the store, whose title is the first 50
characters of the user message with an ellipsis appended exactly when the
message exceeds 50 characters; and once the turn completes, that
conversation's stored message list is the user message followed by the
assistant message, in that order.  The `DB.WF` hypothesis is the freshness
discipline of the id supply. -/
theorem intended_first_turn :
    (∀ (db : DB) (mdl msg : String) (data : ChatRequest) (upstream : UpstreamResp),
      DB.WF db → data.model = some mdl → data.message = some msg →
      data.chat_id = none → upstream.error = none →
      ∃ cid uid aid,
        (chat_endpoint db (some data) upstream ⟨false, false, false⟩).2.1.chats =
          db.chats ++ [{ id := cid,
                         title := msg.take 50 ++ (if msg.length > 50 then "..." else ""),
                         model := mdl }] ∧
        get_chat_messages (chat_endpoint db (some data) upstream ⟨false, false, false⟩).2.1 cid =
          [{ id := uid, chat_id := cid, role := "user", content := msg },
           { id := aid, chat_id := cid, role := "assistant", content := upstream.content }] ∧
        (chat_endpoint db (some data) upstream ⟨false, false, false⟩).1 =
          ChatResult.success cid upstream.content aid) ∧
    (∀ (db : DB) (mdl msg : String) (chunks : List Chunk),
      DB.WF db → (∀ c ∈ chunks, c.error = none) →
      ∃ cid uid aid acontent,
        (generate db none mdl msg chunks false).2.chats =
          db.chats ++ [{ id := cid,
                         title := msg.take 50 ++ (if msg.length > 50 then "..." else ""),
                         model := mdl }] ∧
        get_chat_messages (generate db none mdl msg chunks false).2 cid =
          [{ id := uid, chat_id := cid, role := "user", content := msg },
           { id := aid, chat_id := cid, role := "assistant", content := acontent }]) := by
  constructor
  · intro db mdl msg data upstream hwf hm hmsg hcid hup
    refine ⟨db.nextId, db.nextId + 1, db.nextId + 2, ?_, ?_, ?_⟩ <;>
      simp [chat_endpoint, hm, hmsg, hcid, hup, persistMessages, create_chat,
        add_message, truncTitle, get_chat_messages, List.filter_append,
        List.filter_cons, filter_chatid_nil db.messages db.nextId hwf.2]
  · intro db mdl msg chunks hwf hok
    have hab := (relayChunks_no_error chunks hok).1
    refine ⟨db.nextId, db.nextId + 1, db.nextId + 2, (relayChunks chunks).2.1, ?_, ?_⟩ <;>
      simp [generate, finishStream, hab, create_chat, add_message, truncTitle,
        get_chat_messages, List.filter_append, List.filter_cons,
        filter_chatid_nil db.messages db.nextId hwf.2]

/-- Whether the fault oracle makes some storage write of the blocking turn
fail, given which writes the turn performs (conversation creation happens
only when no chat id was supplied). -/
def storage_write_fails (f : Faults) (cid? : Option ℕ) : Bool :=
  match cid? with
  | none => f.create_chat || f.add_user || f.add_assistant
  | some _ => f.add_user || f.add_assistant

/-- Under the intended blocking-handler semantics, on a turn whose upstream
call succeeds but whose persistence fails — at conversation creation or at either message append —
the handler still returns the generated assistant text, inside the warning
response that also carries the persistence error. -/
theorem intended_degraded_warning (db : DB) (data : ChatRequest) (upstream : UpstreamResp)
    (faults : Faults) (hm : data.model.isSome = true) (hmsg : data.message.isSome = true)
    (hup : upstream.error = none)
    (hf : storage_write_fails faults data.chat_id = true) :
    ∃ e, (chat_endpoint db (some data) upstream faults).1 =
      ChatResult.warning upstream.content e := by
  obtain ⟨fc, fu, fa⟩ := faults
  cases hcid : data.chat_id <;> rw [hcid] at hf <;>
    simp only [storage_write_fails] at hf <;>
    cases fc <;> cases fu <;> cases fa <;>
    simp_all [chat_endpoint, persistMessages]

/-- Claim C1 (code bug): the claimed streaming-relay behavior — content
frames whose concatenation is persisted, then exactly one done frame — is
the evident intent, but the code cannot deliver it: the block hosting the
relay is statically illegal (`nonlocal chat_id` after its use), so
`server.py` never byte-compiles and no streaming turn is ever served.  The
first conjunct is the compile failure; the remaining conjuncts evaluate the
intended semantics at the spec's example turn, exhibiting the behavior the
program, as written, can never produce. -/
theorem C1_code_bug :
    server_module_compiles = false ∧
    (generate ⟨[], [], 0⟩ none "llama3" "Hello"
        [{ error := none, content := some "Hi" },
         { error := none, content := some " there" }] false).1 =
      [Frame.chatCreated 0, Frame.content "Hi", Frame.content " there", Frame.done 2] ∧
    (generate ⟨[], [], 0⟩ none "llama3" "Hello"
        [{ error := none, content := some "Hi" },
         { error := none, content := some " there" }] false).2.messages.map
        (fun m => (m.role, m.content)) =
      [("user", "Hello"), ("assistant", "Hi there")] :=
  ⟨rfl, rfl, rfl⟩

/-- Claim C3 (code bug): no request is ever rejected with a validation error
— or processed at all — because `server.py` never byte-compiles (first
conjunct).  Worse for the claim, the check as written at `server.py:127,201`
tests only key presence: the remaining conjuncts evaluate the intended
handler semantics at a body with empty-string `model` and `message`, which
passes validation, reaches the upstream call (third component `true`) and
even succeeds, on both the blocking and the streaming path. -/
theorem C3_code_bug :
    server_module_compiles = false ∧
    (chat_endpoint ⟨[], [], 0⟩
        (some { model := some "", message := some "", chat_id := none,
                temperature := none, max_tokens := none })
        { error := none, content := "ok" }
        { create_chat := false, add_user := false, add_assistant := false }).2.2 = true ∧
    (chat_endpoint ⟨[], [], 0⟩
        (some { model := some "", message := some "", chat_id := none,
                temperature := none, max_tokens := none })
        { error := none, content := "ok" }
        { create_chat := false, add_user := false, add_assistant := false }).1 =
      ChatResult.success 0 "ok" 2 ∧
    (stream_chat_endpoint ⟨[], [], 0⟩
        (some { model := some "", message := some "", chat_id := none,
                temperature := none, max_tokens := none }) [] false).isOk = true :=
  ⟨rfl, rfl, rfl, rfl⟩

/-- Claim C4 (code bug): the claimed error handling — one error frame, no
done frame, no assistant message persisted — is the evident intent of the
relay loop, but the block hosting it is the statically illegal one, so
`server.py` never byte-compiles and no streaming turn ever reaches an error
chunk (first conjunct).  The remaining conjuncts evaluate the intended
semantics at a turn whose second chunk carries an error: one error frame
after the forwarded delta, no done frame, and only the user message stored. -/
theorem C4_code_bug :
    server_module_compiles = false ∧
    (generate ⟨[], [], 0⟩ none "llama3" "Hello"
        [{ error := none, content := some "Hi" },
         { error := some "boom", content := none }] false).1 =
      [Frame.chatCreated 0, Frame.content "Hi", Frame.error "boom"] ∧
    (generate ⟨[], [], 0⟩ none "llama3" "Hello"
        [{ error := none, content := some "Hi" },
         { error := some "boom", content := none }] false).2.messages.map
        (fun m => (m.role, m.content)) =
      [("user", "Hello")] :=
  ⟨rfl, rfl, rfl⟩

set_option maxRecDepth 4000 in
/-- Claim C5 (code bug): the claimed first-turn round trip — one conversation
created, titled from the message, holding `[user, assistant]` — is the
evident intent of both handlers, but neither ever processes a turn:
`server.py` never byte-compiles (first conjunct).  The remaining conjuncts
evaluate the intended semantics of the blocking handler and of the streaming
generator at a first turn "Hello" on the empty store: exactly one chat row
titled "Hello", and the message list `[user, assistant]` in order. -/
theorem C5_code_bug :
    server_module_compiles = false ∧
    (chat_endpoint ⟨[], [], 0⟩
        (some { model := some "llama3", message := some "Hello", chat_id := none,
                temperature := none, max_tokens := none })
        { error := none, content := "Hi" }
        { create_chat := false, add_user := false, add_assistant := false }).2.1.chats =
      [{ id := 0, title := "Hello", model := "llama3" }] ∧
    (chat_endpoint ⟨[], [], 0⟩
        (some { model := some "llama3", message := some "Hello", chat_id := none,
                temperature := none, max_tokens := none })
        { error := none, content := "Hi" }
        { create_chat := false, add_user := false, add_assistant := false }).2.1.messages.map
        (fun m => (m.role, m.content)) =
      [("user", "Hello"), ("assistant", "Hi")] ∧
    (generate ⟨[], [], 0⟩ none "llama3" "Hello"
        [{ error := none, content := some "Hi" }] false).2.chats =
      [{ id := 0, title := "Hello", model := "llama3" }] ∧
    (generate ⟨[], [], 0⟩ none "llama3" "Hello"
        [{ error := none, content := some "Hi" }] false).2.messages.map
        (fun m => (m.role, m.content)) =
      [("user", "Hello"), ("assistant", "Hi")] :=
  ⟨rfl, rfl, rfl, rfl, rfl⟩

/-- Claim C8 (code bug): the claimed degraded warning — generated text
returned despite a failed storage write — is the evident intent of the
`except` at `server.py:175-181`, but no blocking turn ever reaches it:
`server.py` never byte-compiles (first conjunct).  The second conjunct
evaluates the intended semantics at a turn whose assistant write fails: the
caller would still receive the generated text with the warning and the
persistence error. -/
theorem C8_code_bug :
    server_module_compiles = false ∧
    (chat_endpoint ⟨[], [], 0⟩
        (some { model := some "llama3", message := some "hi", chat_id := none,
                temperature := none, max_tokens := none })
        { error := none, content := "answer" }
        { create_chat := false, add_user := false, add_assistant := true }).1 =
      ChatResult.warning "answer" "add_message(assistant) failed" :=
  ⟨rfl, rfl⟩

end ChatBackend
